import Mathlib

/-!
Verification of the dashboard backend in `src/server/index.ts`.

The server code is shallowly embedded: JavaScript numbers (timestamps in
milliseconds, minute durations, rates, scores) are modelled as rationals `ℚ`,
JavaScript's `string | null | undefined` values as `Option String`, and the
relevant Prisma query results as lists passed explicitly to each view
function.  JavaScript truthiness on strings (`!s`, `s || d`, `s ? _ : _`)
treats the empty string like an absent value; the helpers below reproduce
that behaviour exactly.
-/

namespace SOLServer

/-! ## JavaScript-semantics helpers -/

/-- `s.toLowerCase()` restricted to ASCII, which covers every keyword the
server inspects. -/
def jsToLower (s : String) : String := String.mk (s.data.map Char.toLower)

/-- Does the first list start the second one? -/
def prefixMatch : List Char → List Char → Bool
  | [], _ => true
  | _ :: _, [] => false
  | a :: as, b :: bs => a == b && prefixMatch as bs

/-- Does the first list occur contiguously inside the second one? -/
def substringMatch (needle : List Char) : List Char → Bool
  | [] => prefixMatch needle []
  | l@(_ :: rest) => prefixMatch needle l || substringMatch needle rest

/-- `hay.includes(needle)`: substring containment. -/
def jsIncludes (hay needle : String) : Bool :=
  substringMatch needle.data hay.data

/-- `x ?? d` on a nullable value: the left operand unless it is
null/undefined. -/
def jsNullish (x : Option α) (d : α) : α := x.getD d

/-- `x || d` on a nullable string: JavaScript `||` also replaces the empty
string, which is falsy. -/
def jsOrString (x : Option String) (d : String) : String :=
  match x with
  | none => d
  | some s => if s = "" then d else s

/-- `x ? _ : _` truthiness of a nullable string. -/
def jsTruthyString (x : Option String) : Bool :=
  match x with
  | none => false
  | some s => s ≠ ""

/-- `Math.round(x)`: round half towards positive infinity. -/
def jsRound (x : ℚ) : ℤ := ⌊x + 1 / 2⌋

/-- `minutesBetween(start, end)` (index.ts:290-292):
`Math.max((end.getTime() - start.getTime()) / 60000, 0)`. -/
def minutesBetween (start finish : ℚ) : ℚ :=
  max ((finish - start) / 60000) 0

/-! ## Derivation functions (index.ts:294-335) -/

inductive Priority where
  | low | medium | high | urgent
deriving DecidableEq, Repr

/-- `determinePriority(reason)` (index.ts:294-307).  `if (!reason)` is a JS
falsiness check, so the empty string also yields `medium`. -/
def determinePriority (reason : Option String) : Priority :=
  match reason with
  | none => .medium
  | some r =>
    if r = "" then .medium
    else
      let lower := jsToLower r
      if jsIncludes lower "urgent" || jsIncludes lower "raid" || jsIncludes lower "critical" then
        .urgent
      else if jsIncludes lower "high" || jsIncludes lower "warning" then
        .high
      else if jsIncludes lower "medium" || jsIncludes lower "review" then
        .medium
      else
        .low

/-- `extractTags(reason)` (index.ts:309-316): split on whitespace, strip all
characters but ASCII alphanumerics, `#`, `_`, `-`, keep tokens of length at
least 3, cap at 4. -/
def extractTags (reason : Option String) : List String :=
  match reason with
  | none => []
  | some r =>
    if r = "" then []
    else
      ((((r.split (fun c => c.isWhitespace)).map
          (fun word => String.mk (word.toList.filter
            (fun c => c.isAlphanum || c = '#' || c = '_' || c = '-')))).filter
          (fun word => 3 ≤ word.length)).take 4)

/-- `formatUsername(username, discriminator)` (index.ts:318-324).
`if (!username)` treats the empty string as absent, and
`discriminator && discriminator !== '0'` treats an empty discriminator as
absent as well. -/
def formatUsername (username discriminator : Option String) : String :=
  match username with
  | none => "Unknown Member"
  | some u =>
    if u = "" then "Unknown Member"
    else
      match discriminator with
      | some d => if d ≠ "" ∧ d ≠ "0" then u ++ "#" ++ d else u
      | none => u

/-! ## Snowflake validation (index.ts:270-276) -/

/-- The test performed by the `validateSnowflake` middleware:
`id` is present and matches `^\d{17,19}$`. -/
def validateSnowflakeCheck (id : String) : Bool :=
  !id.isEmpty &&
    (decide (17 ≤ id.length) && decide (id.length ≤ 19) &&
      id.toList.all Char.isDigit)

/-! ## Data model

Rows of the relational store, restricted to the fields the server selects.
All lists are already scoped to one guild, mirroring the `where: { guildId }`
clause present on every query. -/

structure User where
  id : String
  username : Option String
  discriminator : Option String
deriving DecidableEq

structure Warning where
  id : ℕ
  userId : String
  moderatorId : Option String
  reason : Option String
  active : Bool
  createdAt : ℚ
  expiresAt : Option ℚ
deriving DecidableEq

structure Notification where
  id : ℕ
  type : Option String
  title : Option String
  message : Option String
  read : Bool
  createdAt : ℚ
deriving DecidableEq

structure PointsRow where
  userId : String
  user : Option User
  points : ℤ
  level : ℤ
deriving DecidableEq

structure Member where
  userId : String
  user : Option User
  roles : List String
deriving DecidableEq

/-- The store contents visible to one guild's routes. -/
structure Store where
  users : List User
  warnings : List Warning
  notifications : List Notification
  points : List PointsRow
  members : List Member
deriving DecidableEq

/-! ## Store ordering

`orderBy` clauses are modelled as stable sorts of the store-native row list,
so rows tied on every ordering key keep their store order. -/

/-- Descending order on one projected key (`orderBy { key: 'desc' }`). -/
def descLE (f : α → β) [LinearOrder β] (a b : α) : Prop := f b ≤ f a

instance (f : α → β) [LinearOrder β] : DecidableRel (descLE f) := fun a b => by
  unfold descLE; infer_instance

instance (f : α → β) [LinearOrder β] : IsTotal α (descLE f) :=
  ⟨fun a b => le_total (f b) (f a)⟩

instance (f : α → β) [LinearOrder β] : IsTrans α (descLE f) :=
  ⟨fun _ _ _ h1 h2 => le_trans h2 h1⟩

/-- Descending order on a primary key with a descending secondary key
(`orderBy { k1: 'desc', k2: 'desc' }`). -/
def lexDescLE (f : α → β) (g : α → γ) [LinearOrder β] [LinearOrder γ]
    (a b : α) : Prop :=
  f b < f a ∨ (f a = f b ∧ g b ≤ g a)

instance (f : α → β) (g : α → γ) [LinearOrder β] [LinearOrder γ] :
    DecidableRel (lexDescLE f g) := fun a b => by
  unfold lexDescLE; infer_instance

instance (f : α → β) (g : α → γ) [LinearOrder β] [LinearOrder γ] :
    IsTotal α (lexDescLE f g) := by
  constructor
  intro a b
  rcases lt_trichotomy (f a) (f b) with h | h | h
  · exact Or.inr (Or.inl h)
  · rcases le_total (g b) (g a) with hg | hg
    · exact Or.inl (Or.inr ⟨h, hg⟩)
    · exact Or.inr (Or.inr ⟨h.symm, hg⟩)
  · exact Or.inl (Or.inl h)

instance (f : α → β) (g : α → γ) [LinearOrder β] [LinearOrder γ] :
    IsTrans α (lexDescLE f g) := by
  constructor
  intro a b c h1 h2
  rcases h1 with h1 | ⟨h1e, h1g⟩
  · rcases h2 with h2 | ⟨h2e, h2g⟩
    · exact Or.inl (lt_trans h2 h1)
    · exact Or.inl (h2e ▸ h1)
  · rcases h2 with h2 | ⟨h2e, h2g⟩
    · exact Or.inl (h1e ▸ h2)
    · exact Or.inr ⟨h1e.trans h2e, le_trans h2g h1g⟩

/-! ## Guild-scoped routes (index.ts:270-276, 347-986) -/

/-- The outcome of one guild-scoped route: either the handler's JSON value
or the 400 response produced by the `validateSnowflake` middleware. -/
inductive RouteResult (α : Type) where
  | ok (value : α)
  | badRequest
deriving DecidableEq

/-- Every `/api/guild/:guildId/...` route is registered with the
`validateSnowflake` middleware in front of its handler (index.ts:347-986):
an id failing the check is answered 400 without the handler — and so
without any store query — running. -/
def guardedRoute (id : String) (handler : Store → α) (store : Store) :
    RouteResult α :=
  if validateSnowflakeCheck id then .ok (handler store) else .badRequest

/-! ## Dashboard metrics view (index.ts:376-430) -/

/-- `prisma.warning.findMany({ where: { guildId, active: true } })`. -/
def activeOf (warnings : List Warning) : List Warning :=
  warnings.filter (fun w => w.active)

/-- `prisma.warning.findMany({ where: { guildId, active: false } })`. -/
def completedOf (warnings : List Warning) : List Warning :=
  warnings.filter (fun w => !w.active)

/-- index.ts:394-407: average response minutes over the completed cases if
any exist, else over the active cases, else 0.  For a completed case the
completion timestamp is `warning.expiresAt ?? new Date()`. -/
def dashAvgResponseMinutes (warnings : List Warning) (now : ℚ) : ℚ :=
  let completedWarnings := completedOf warnings
  let activeWarnings := activeOf warnings
  if 0 < completedWarnings.length then
    (completedWarnings.foldl
        (fun total w => total + minutesBetween w.createdAt (jsNullish w.expiresAt now)) 0)
      / (completedWarnings.length : ℚ)
  else if 0 < activeWarnings.length then
    (activeWarnings.foldl (fun total w => total + minutesBetween w.createdAt now) 0)
      / (activeWarnings.length : ℚ)
  else 0

/-- index.ts:409-411. -/
def dashCompletionRate (warnings : List Warning) : ℚ :=
  let totalWarnings := (activeOf warnings).length + (completedOf warnings).length
  if totalWarnings = 0 then 100
  else ((completedOf warnings).length : ℚ) / (totalWarnings : ℚ) * 100

/-- index.ts:413-417: completed warnings whose completion
(`expiresAt ?? createdAt`) is at or after the start of the current UTC day. -/
def dashCompletedToday (warnings : List Warning) (startToday : ℚ) : ℕ :=
  ((completedOf warnings).filter
    (fun w => decide (startToday ≤ jsNullish w.expiresAt w.createdAt))).length

structure DashboardMetrics where
  activeReinforcements : ℕ
  avgResponseMinutes : ℚ
  activeAlerts : ℕ
  completionRate : ℚ
  totalCompletedToday : ℕ
deriving DecidableEq

/-- The JSON body of `GET /api/guild/:guildId/dashboard/metrics`
(index.ts:419-425). -/
def dashboardMetrics (warnings : List Warning) (unreadAlerts : ℕ)
    (now startToday : ℚ) : DashboardMetrics :=
  { activeReinforcements := (activeOf warnings).length
    avgResponseMinutes := dashAvgResponseMinutes warnings now
    activeAlerts := unreadAlerts
    completionRate := dashCompletionRate warnings
    totalCompletedToday := dashCompletedToday warnings startToday }

/-- The mean-response computation exactly as claim C1 words it: the
completion timestamp of a completed case lacking an expiry is its
`createdAt` (so such a case contributes 0 minutes). -/
def claimAvgResponseMinutes (warnings : List Warning) (now : ℚ) : ℚ :=
  let completed := completedOf warnings
  let active := activeOf warnings
  if 0 < completed.length then
    ((completed.map
        (fun w => max 0 ((jsNullish w.expiresAt w.createdAt - w.createdAt) / 60000))).sum)
      / (completed.length : ℚ)
  else if 0 < active.length then
    ((active.map (fun w => max 0 ((now - w.createdAt) / 60000))).sum)
      / (active.length : ℚ)
  else 0

/-- The mean-response computation as amended: the completion timestamp of
every case lacking an expiry — completed or still active — is the current
time. -/
def amendedAvgResponseMinutes (warnings : List Warning) (now : ℚ) : ℚ :=
  let completed := completedOf warnings
  let active := activeOf warnings
  if 0 < completed.length then
    ((completed.map
        (fun w => max 0 ((jsNullish w.expiresAt now - w.createdAt) / 60000))).sum)
      / (completed.length : ℚ)
  else if 0 < active.length then
    ((active.map (fun w => max 0 ((now - w.createdAt) / 60000))).sum)
      / (active.length : ℚ)
  else 0

/-! ## Alerts view (index.ts:487-532) -/

inductive AlertType where
  | info | warning | urgent | resolved
deriving DecidableEq

/-- index.ts:498-506: keyword mapping of the already-lowercased type. -/
def mapAlertType (t : String) : AlertType :=
  if jsIncludes t "urgent" || jsIncludes t "warning" || jsIncludes t "ban" then .urgent
  else if jsIncludes t "error" || jsIncludes t "strike" then .warning
  else if jsIncludes t "resolved" then .resolved
  else .info

structure AlertEntry where
  id : ℕ
  type : AlertType
  title : String
  description : String
  timestamp : ℚ
deriving DecidableEq

/-- index.ts:497-525.  The `metadata`-derived `channel`/`user` fields are
not modelled; no claim concerns them. -/
def renderAlert (alert : Notification) : AlertEntry :=
  { id := alert.id
    type := mapAlertType (jsToLower (jsOrString alert.type "info"))
    title := jsOrString alert.title (jsOrString alert.type "Alert")
    description := jsOrString alert.message "No additional information provided."
    timestamp := alert.createdAt }

/-- `GET /api/guild/:guildId/alerts` (index.ts:487-532):
`orderBy: { createdAt: 'desc' }, take: 15`, then the per-alert mapping. -/
def alertsView (notifications : List Notification) : List AlertEntry :=
  ((List.insertionSort (descLE Notification.createdAt) notifications).take 15).map
    renderAlert

/-! ## Reinforcement queue view (index.ts:432-485) -/

inductive ReinforcementStatus where
  | inProgress | queued
deriving DecidableEq

structure ReinforcementEntry where
  id : ℕ
  user : String
  request : String
  priority : Priority
  status : ReinforcementStatus
  assignee : Option String
  tags : List String
  timestamp : ℚ
deriving DecidableEq

/-- `userMap.get(id)`: lookup in the related-users list
(index.ts:454-461).  The code restricts the query to the user ids appearing
on the fetched warnings, which does not change any lookup result. -/
def findUser (users : List User) (id : String) : Option User :=
  users.find? (fun u => u.id == id)

/-- One reinforcement-queue row (index.ts:463-478). -/
def renderReinforcement (users : List User) (w : Warning) : ReinforcementEntry :=
  let requester := findUser users w.userId
  let moderator : Option User := match w.moderatorId with
    | some m => if m = "" then none else findUser users m
    | none => none
  { id := w.id
    user := jsNullish
      (some (formatUsername (requester.bind User.username)
        (requester.bind User.discriminator))) w.userId
    request := jsOrString w.reason "No reason provided"
    priority := determinePriority w.reason
    status := if jsTruthyString w.moderatorId then .inProgress else .queued
    assignee := moderator.map (fun m => formatUsername m.username m.discriminator)
    tags := extractTags w.reason
    timestamp := w.createdAt }

/-- `GET /api/guild/:guildId/reinforcements` (index.ts:432-485): active
warnings, newest first, capped at 50, rendered per warning. -/
def reinforcementsView (users : List User) (warnings : List Warning) :
    List ReinforcementEntry :=
  ((List.insertionSort (descLE Warning.createdAt) (activeOf warnings)).take 50).map
    (renderReinforcement users)

/-! ## Points leaderboard view (index.ts:695-758) -/

structure LeaderboardEntry where
  position : ℕ
  userId : String
  username : String
  discriminator : Option String
  points : ℤ
  level : ℤ
deriving DecidableEq

/-- `.map((entry, index) => ...)`: a map that also passes the element's
index. -/
def withPositions (f : ℕ → α → β) : ℕ → List α → List β
  | _, [] => []
  | i, x :: xs => f i x :: withPositions f (i + 1) xs

/-- One points-leaderboard row (index.ts:744-751). -/
def mkLeaderboardEntry (index : ℕ) (entry : PointsRow) : LeaderboardEntry :=
  { position := index + 1
    userId := entry.userId
    username := match entry.user with
      | some u => formatUsername u.username u.discriminator
      | none => entry.userId
    discriminator := entry.user.bind (fun u => u.discriminator)
    points := entry.points
    level := entry.level }

/-- `GET /api/guild/:guildId/leaderboard` with `metric = "points"`
(index.ts:732-753): `orderBy: { points: 'desc', level: 'desc' },
take: limit`, then ranking by index. -/
def leaderboardPoints (rows : List PointsRow) (limit : ℕ) : List LeaderboardEntry :=
  withPositions mkLeaderboardEntry 0
    ((List.insertionSort (lexDescLE PointsRow.points PointsRow.level) rows).take limit)

/-- The points leaderboard as claim C2 words it: ordered by points only,
ties keeping store-native order. -/
def claimLeaderboardPoints (rows : List PointsRow) (limit : ℕ) : List LeaderboardEntry :=
  withPositions mkLeaderboardEntry 0
    ((List.insertionSort (descLE PointsRow.points) rows).take limit)

/-! ## Moderator roster view (index.ts:562-693) -/

inductive PresenceBucket where
  | online | away | offline
deriving DecidableEq

structure ModeratorEntry where
  name : String
  role : String
  activeAssignments : ℕ
  completedToday : ℕ
  avgResponseMinutes : ℚ
  status : PresenceBucket
  responseScore : ℤ
deriving DecidableEq

/-- `map.get(key)` on a `Map` built from an association list. -/
def assocLookup (m : List (String × α)) (k : String) : Option α :=
  (m.find? (fun p => p.1 == k)).map (fun p => p.2)

/-- index.ts:657-660:
`Math.max(55, Math.min(100, 100 - avgResponseMinutes * 2 + assignments * -1
+ completedCount * 3))`. -/
def calculatedScore (avgResponseMinutes : ℚ) (assignments completedCount : ℕ) : ℚ :=
  max 55 (min 100
    (100 - avgResponseMinutes * 2 + (assignments : ℚ) * (-1) + (completedCount : ℚ) * 3))

/-- One roster row (index.ts:650-684).  The input maps model the groupBy /
duration-collection results of index.ts:578-648.  The string-typed `roles`
branch of index.ts:667-673 is not modelled (`roles` is kept as a list). -/
def renderModerator (activeMap completedTodayMap : List (String × ℕ))
    (durationsByModerator : List (String × List ℚ))
    (presenceMap : List (String × String)) (member : Member) : ModeratorEntry :=
  let assignments := jsNullish (assocLookup activeMap member.userId) 0
  let completedCount := jsNullish (assocLookup completedTodayMap member.userId) 0
  let durations := jsNullish (assocLookup durationsByModerator member.userId) []
  let avgResponseMinutes : ℚ :=
    if 0 < durations.length then
      (durations.foldl (fun sum value => sum + value) 0) / (durations.length : ℚ)
    else 0
  let presence := jsToLower (jsOrString (assocLookup presenceMap member.userId) "offline")
  let status : PresenceBucket :=
    if presence = "online" then .online
    else if presence = "idle" ∨ presence = "dnd" then .away
    else .offline
  { name := match member.user with
      | some u => formatUsername u.username u.discriminator
      | none => member.userId
    role := match member.roles with
      | r :: _ => r
      | [] => "Moderator"
    activeAssignments := assignments
    completedToday := completedCount
    avgResponseMinutes := avgResponseMinutes
    status := status
    responseScore := jsRound (calculatedScore avgResponseMinutes assignments completedCount) }

/-- `GET /api/guild/:guildId/moderators` (index.ts:562-693): members fetched
with `take: 50`, mapped to roster rows, then sorted by the comparator
`b.responseScore - a.responseScore || b.completedToday - a.completedToday`. -/
def moderatorsView (activeMap completedTodayMap : List (String × ℕ))
    (durationsByModerator : List (String × List ℚ))
    (presenceMap : List (String × String)) (members : List Member) :
    List ModeratorEntry :=
  List.insertionSort (lexDescLE ModeratorEntry.responseScore ModeratorEntry.completedToday)
    ((members.take 50).map
      (renderModerator activeMap completedTodayMap durationsByModerator presenceMap))

/-! ## Concrete stores used by counterexamples and witnesses -/

/-- A completed warning with no expiry, created at epoch 0. -/
def c1Warning : Warning :=
  { id := 1, userId := "100000000000000001", moderatorId := none, reason := none,
    active := false, createdAt := 0, expiresAt := none }

/-- Three active warnings and one completed warning. -/
def c4Warnings : List Warning :=
  [ { id := 1, userId := "100000000000000001", moderatorId := none, reason := none,
      active := true, createdAt := 0, expiresAt := none },
    { id := 2, userId := "100000000000000002", moderatorId := none, reason := none,
      active := true, createdAt := 0, expiresAt := none },
    { id := 3, userId := "100000000000000003", moderatorId := none, reason := none,
      active := true, createdAt := 0, expiresAt := none },
    { id := 4, userId := "100000000000000004", moderatorId := none, reason := none,
      active := false, createdAt := 0, expiresAt := some 60000 } ]

/-- Sixteen notifications, created at times 0, 1, ..., 15 ms. -/
def c3Notifications : List Notification :=
  (List.range 16).map
    (fun i => { id := i, type := none, title := none, message := none,
                read := false, createdAt := (i : ℚ) })

/-- Two rows tied on points, stored with the lower level first. -/
def c2TiedRows : List PointsRow :=
  [ { userId := "100000000000000001", user := none, points := 10, level := 1 },
    { userId := "100000000000000002", user := none, points := 10, level := 5 } ]

/-- Five rows with distinct points, in store order 50, 40, 30, 20, 10. -/
def c2FiveRows : List PointsRow :=
  [ { userId := "100000000000000001", user := none, points := 50, level := 1 },
    { userId := "100000000000000002", user := none, points := 40, level := 1 },
    { userId := "100000000000000003", user := none, points := 30, level := 1 },
    { userId := "100000000000000004", user := none, points := 20, level := 1 },
    { userId := "100000000000000005", user := none, points := 10, level := 1 } ]

/-- A member with no user record and no roles. -/
def c5Member : Member :=
  { userId := "100000000000000001", user := none, roles := [] }

/-- An active warning whose user id has no user record. -/
def c10Warning : Warning :=
  { id := 7, userId := "100000000000000009", moderatorId := none, reason := none,
    active := true, createdAt := 0, expiresAt := none }

/-! ## General lemmas -/

theorem foldl_add_eq_sum (f : α → ℚ) (l : List α) :
    ∀ a : ℚ, l.foldl (fun total x => total + f x) a = a + (l.map f).sum := by
  induction l with
  | nil => intro a; simp
  | cons x xs ih =>
    intro a
    simp only [List.foldl_cons, List.map_cons, List.sum_cons, ih (a + f x)]
    ring

theorem minutesBetween_eq (s e : ℚ) : minutesBetween s e = max 0 ((e - s) / 60000) := by
  unfold minutesBetween
  exact max_comm _ _

theorem length_filter_partition (l : List α) (p : α → Bool) :
    (l.filter p).length + (l.filter (fun x => !p x)).length = l.length := by
  induction l with
  | nil => simp
  | cons x xs ih =>
    by_cases h : p x = true <;> simp [List.filter_cons, h] <;> omega

theorem withPositions_length (f : ℕ → α → β) :
    ∀ (k : ℕ) (l : List α), (withPositions f k l).length = l.length := by
  intro k l
  induction l generalizing k with
  | nil => rfl
  | cons x xs ih => simp [withPositions, ih]

theorem mem_withPositions {f : ℕ → α → β} {b : β} :
    ∀ {k : ℕ} {l : List α}, b ∈ withPositions f k l → ∃ i a, a ∈ l ∧ b = f i a := by
  intro k l
  induction l generalizing k with
  | nil => intro h; simp [withPositions] at h
  | cons x xs ih =>
    intro h
    simp only [withPositions, List.mem_cons] at h
    rcases h with h | h
    · exact ⟨k, x, List.mem_cons_self x xs, h⟩
    · obtain ⟨i, a, ha, hb⟩ := ih h
      exact ⟨i, a, List.mem_cons_of_mem x ha, hb⟩

theorem pairwise_withPositions {r : α → α → Prop} {rE : β → β → Prop}
    (f : ℕ → α → β) (hf : ∀ i j a b, r a b → rE (f i a) (f j b)) :
    ∀ (k : ℕ) (l : List α), l.Pairwise r → (withPositions f k l).Pairwise rE := by
  intro k l
  induction l generalizing k with
  | nil => intro _; exact List.Pairwise.nil
  | cons x xs ih =>
    intro h
    obtain ⟨h1, h2⟩ := List.pairwise_cons.mp h
    refine List.pairwise_cons.mpr ⟨?_, ih (k + 1) h2⟩
    intro b hb
    obtain ⟨i, a, ha, rfl⟩ := mem_withPositions hb
    exact hf k i x a (h1 a ha)

theorem withPositions_map_position :
    ∀ (k : ℕ) (l : List PointsRow),
      (withPositions mkLeaderboardEntry k l).map LeaderboardEntry.position
        = List.range' (k + 1) l.length := by
  intro k l
  induction l generalizing k with
  | nil => simp [withPositions]
  | cons x xs ih =>
    simp only [withPositions, List.map_cons, List.length_cons, List.range'_succ, ih (k + 1)]
    rfl

theorem calculatedScore_eq (avg : ℚ) (asg cmp : ℕ) :
    calculatedScore avg asg cmp
      = max 55 (min 100 (100 - 2 * avg - (asg : ℚ) + 3 * (cmp : ℚ))) := by
  unfold calculatedScore
  congr 1
  congr 1
  ring

theorem renderModerator_responseScore (activeMap completedTodayMap : List (String × ℕ))
    (durationsByModerator : List (String × List ℚ))
    (presenceMap : List (String × String)) (member : Member) :
    (renderModerator activeMap completedTodayMap durationsByModerator presenceMap
        member).responseScore
      = jsRound (calculatedScore
          (renderModerator activeMap completedTodayMap durationsByModerator presenceMap
            member).avgResponseMinutes
          (renderModerator activeMap completedTodayMap durationsByModerator presenceMap
            member).activeAssignments
          (renderModerator activeMap completedTodayMap durationsByModerator presenceMap
            member).completedToday) := rfl

/-! ## Claim C1 -/

/-- C1 counterexample: one completed case with no `expiresAt`, created at 0,
observed at `now = 60000` ms.  The code averages `minutesBetween(createdAt,
new Date())` = 1 minute, while the claim predicts a contribution of 0
minutes. -/
theorem C1_counterexample :
    (dashboardMetrics [c1Warning] 0 60000 0).avgResponseMinutes = 1 ∧
      claimAvgResponseMinutes [c1Warning] 60000 = 0 := by
  constructor
  · show dashAvgResponseMinutes [c1Warning] 60000 = 1
    norm_num [dashAvgResponseMinutes, completedOf, activeOf, c1Warning,
      minutesBetween, jsNullish, List.filter]
  · norm_num [claimAvgResponseMinutes, completedOf, activeOf, c1Warning,
      jsNullish, List.filter]

/-- C1 (amended): in the dashboard metrics view each case's response
duration is max(0, (completionTimestamp − createdAt) in minutes), where
completionTimestamp is `expiresAt` if present and otherwise the current
time — both for still-active cases and for completed cases lacking an
expiry; the average is taken over the completed set when it is nonempty,
else over the active set, else it is 0. -/
theorem C1_avg_response_amended (warnings : List Warning) (unreadAlerts : ℕ)
    (now startToday : ℚ) :
    (dashboardMetrics warnings unreadAlerts now startToday).avgResponseMinutes
      = amendedAvgResponseMinutes warnings now := by
  show dashAvgResponseMinutes warnings now = amendedAvgResponseMinutes warnings now
  unfold dashAvgResponseMinutes amendedAvgResponseMinutes
  simp only [foldl_add_eq_sum, minutesBetween_eq, zero_add]

/-! ## Claim C2 -/

/-- C2 counterexample: two rows tied on points (store order: level 1 before
level 5).  The route's `orderBy { points: 'desc', level: 'desc' }` puts the
level-5 row first, while the claimed no-secondary-tiebreak ordering keeps
store order. -/
theorem C2_counterexample :
    (leaderboardPoints c2TiedRows 10).map LeaderboardEntry.userId
        = ["100000000000000002", "100000000000000001"] ∧
      (claimLeaderboardPoints c2TiedRows 10).map LeaderboardEntry.userId
        = ["100000000000000001", "100000000000000002"] := by
  constructor <;> decide

/-- C2 (amended): for metric = "points" the leaderboard is sorted descending
by points with ties broken by level descending (remaining ties keep
store-native order); each entry carries a 1-based rank position; the output
length is min(limit, row count) — so limit = 2 on a guild with 5 point
records returns exactly 2 entries, ranked 1 and 2. -/
theorem C2_leaderboard_points_amended (rows : List PointsRow) (limit : ℕ) :
    List.Sorted (descLE LeaderboardEntry.points) (leaderboardPoints rows limit) ∧
    List.Sorted (lexDescLE LeaderboardEntry.points LeaderboardEntry.level)
      (leaderboardPoints rows limit) ∧
    (leaderboardPoints rows limit).map LeaderboardEntry.position
      = List.range' 1 (leaderboardPoints rows limit).length ∧
    (leaderboardPoints rows limit).length = min limit rows.length ∧
    (leaderboardPoints c2FiveRows 2).map LeaderboardEntry.position = [1, 2] ∧
    (leaderboardPoints c2FiveRows 2).length = 2 := by
  have hsorted : List.Sorted (lexDescLE PointsRow.points PointsRow.level)
      (List.insertionSort (lexDescLE PointsRow.points PointsRow.level) rows) :=
    List.sorted_insertionSort _ _
  have htake := hsorted.sublist (List.take_sublist limit _)
  have hlex : List.Sorted (lexDescLE LeaderboardEntry.points LeaderboardEntry.level)
      (leaderboardPoints rows limit) :=
    pairwise_withPositions mkLeaderboardEntry (fun i j a b h => h) 0 _ htake
  refine ⟨?_, hlex, ?_, ?_, by decide, by decide⟩
  · exact hlex.imp (fun h => h.elim (fun h1 => le_of_lt h1) (fun h2 => h2.1.ge))
  · rw [leaderboardPoints, withPositions_map_position, withPositions_length]
  · rw [leaderboardPoints, withPositions_length, List.length_take,
      List.length_insertionSort]

/-! ## Claim C3 -/

/-- C3: the alerts view returns at most 15 notifications — the most recent
by creation time, in descending order (anything beyond the first 15 of the
sort is no newer than anything shown) — and each rendered entry's type comes
from a notification by the first-match-wins keyword rules
urgent/warning/ban → urgent, else error/strike → warning, else resolved →
resolved, else info, applied to the lowercased type. -/
theorem C3_alerts (notifications : List Notification) :
    (alertsView notifications).length ≤ 15 ∧
    List.Sorted (descLE AlertEntry.timestamp) (alertsView notifications) ∧
    (∀ dropped ∈ (List.insertionSort (descLE Notification.createdAt) notifications).drop 15,
      ∀ e ∈ alertsView notifications, dropped.createdAt ≤ e.timestamp) ∧
    (∀ e ∈ alertsView notifications, ∃ n ∈ notifications, e = renderAlert n) ∧
    (∀ t : String,
      ((jsIncludes t "urgent" || jsIncludes t "warning" || jsIncludes t "ban") = true →
        mapAlertType t = AlertType.urgent) ∧
      ((jsIncludes t "urgent" || jsIncludes t "warning" || jsIncludes t "ban") = false →
        (jsIncludes t "error" || jsIncludes t "strike") = true →
        mapAlertType t = AlertType.warning) ∧
      ((jsIncludes t "urgent" || jsIncludes t "warning" || jsIncludes t "ban") = false →
        (jsIncludes t "error" || jsIncludes t "strike") = false →
        jsIncludes t "resolved" = true →
        mapAlertType t = AlertType.resolved) ∧
      ((jsIncludes t "urgent" || jsIncludes t "warning" || jsIncludes t "ban") = false →
        (jsIncludes t "error" || jsIncludes t "strike") = false →
        jsIncludes t "resolved" = false →
        mapAlertType t = AlertType.info)) ∧
    (∀ n : Notification,
      (renderAlert n).type = mapAlertType (jsToLower (jsOrString n.type "info"))) := by
  have hsorted : List.Sorted (descLE Notification.createdAt)
      (List.insertionSort (descLE Notification.createdAt) notifications) :=
    List.sorted_insertionSort _ _
  refine ⟨?_, ?_, ?_, ?_, ?_, fun n => rfl⟩
  · simp only [alertsView, List.length_map]
    exact List.length_take_le 15 _
  · exact (hsorted.sublist (List.take_sublist 15 _)).map renderAlert (fun a b h => h)
  · intro dropped hdropped e he
    simp only [alertsView, List.mem_map] at he
    obtain ⟨a, ha, rfl⟩ := he
    have hsplit := hsorted
    rw [← List.take_append_drop 15
      (List.insertionSort (descLE Notification.createdAt) notifications)] at hsplit
    exact (List.pairwise_append.mp hsplit).2.2 a ha dropped hdropped
  · intro e he
    simp only [alertsView, List.mem_map] at he
    obtain ⟨a, ha, rfl⟩ := he
    refine ⟨a, ?_, rfl⟩
    have := List.take_subset 15
      (List.insertionSort (descLE Notification.createdAt) notifications) ha
    simpa using this
  · intro t
    refine ⟨?_, ?_, ?_, ?_⟩
    · intro h1
      simp [mapAlertType, h1]
    · intro h1 h2
      simp [mapAlertType, h1, h2]
    · intro h1 h2 h3
      simp [mapAlertType, h1, h2, h3]
    · intro h1 h2 h3
      simp [mapAlertType, h1, h2, h3]

/-- Witness for C3 at concrete inputs: with 16 notifications the oldest one
is dropped and is no newer than every shown entry, and the keyword cascade
fires on concrete type strings. -/
theorem C3_witness :
    (({ id := 0, type := none, title := none, message := none, read := false,
        createdAt := 0 } : Notification)
        ∈ (List.insertionSort (descLE Notification.createdAt) c3Notifications).drop 15 ∧
      ({ id := 1, type := AlertType.info, title := "Alert",
         description := "No additional information provided.",
         timestamp := 1 } : AlertEntry) ∈ alertsView c3Notifications ∧
      (0 : ℚ) ≤ (1 : ℚ)) ∧
    ((jsIncludes "member_banned" "urgent" || jsIncludes "member_banned" "warning" ||
        jsIncludes "member_banned" "ban") = true ∧
      mapAlertType "member_banned" = AlertType.urgent) ∧
    ((jsIncludes "strike_issued" "urgent" || jsIncludes "strike_issued" "warning" ||
        jsIncludes "strike_issued" "ban") = false ∧
      (jsIncludes "strike_issued" "error" || jsIncludes "strike_issued" "strike") = true ∧
      mapAlertType "strike_issued" = AlertType.warning) :=
  ⟨⟨by decide, by decide,
    (C3_alerts c3Notifications).2.2.1
      { id := 0, type := none, title := none, message := none, read := false,
        createdAt := 0 } (by decide)
      { id := 1, type := AlertType.info, title := "Alert",
        description := "No additional information provided.", timestamp := 1 }
      (by decide)⟩,
   ⟨by decide, ((C3_alerts c3Notifications).2.2.2.2.1 "member_banned").1 (by decide)⟩,
   ⟨by decide, by decide,
    ((C3_alerts c3Notifications).2.2.2.2.1 "strike_issued").2.1 (by decide) (by decide)⟩⟩

/-! ## Claim C4 -/

/-- C4: `completionRate` is completed / (active + completed) × 100, is 100
when the guild has no warning cases, and is exactly 25 for 3 active and 1
completed cases. -/
theorem C4_completion_rate (warnings : List Warning) (unreadAlerts : ℕ)
    (now startToday : ℚ) :
    (warnings ≠ [] →
      (dashboardMetrics warnings unreadAlerts now startToday).completionRate
        = ((completedOf warnings).length : ℚ)
            / (((activeOf warnings).length : ℚ) + ((completedOf warnings).length : ℚ))
            * 100) ∧
    (warnings = [] →
      (dashboardMetrics warnings unreadAlerts now startToday).completionRate = 100) ∧
    (dashboardMetrics c4Warnings unreadAlerts now startToday).completionRate = 25 := by
  refine ⟨?_, ?_, ?_⟩
  · intro hne
    show dashCompletionRate warnings = _
    unfold dashCompletionRate
    have htotal : (activeOf warnings).length + (completedOf warnings).length
        = warnings.length := length_filter_partition warnings (fun w => w.active)
    have hpos : (activeOf warnings).length + (completedOf warnings).length ≠ 0 := by
      rw [htotal]
      simpa [List.length_eq_zero] using hne
    rw [if_neg hpos]
    push_cast
    ring
  · intro he
    subst he
    show dashCompletionRate [] = 100
    rfl
  · show dashCompletionRate c4Warnings = 25
    norm_num [dashCompletionRate, activeOf, completedOf, c4Warnings, List.filter]

/-- Witness for C4 at concrete inputs: the 3-active-1-completed guild and
the empty guild. -/
theorem C4_completion_rate_witness :
    (c4Warnings ≠ [] ∧
      (dashboardMetrics c4Warnings 0 0 0).completionRate
        = ((completedOf c4Warnings).length : ℚ)
            / (((activeOf c4Warnings).length : ℚ) + ((completedOf c4Warnings).length : ℚ))
            * 100) ∧
    (([] : List Warning) = [] ∧
      (dashboardMetrics ([] : List Warning) 0 0 0).completionRate = 100) :=
  ⟨⟨by simp [c4Warnings],
    (C4_completion_rate c4Warnings 0 0 0).1 (by simp [c4Warnings])⟩,
   ⟨rfl, (C4_completion_rate ([] : List Warning) 0 0 0).2.1 rfl⟩⟩

/-! ## Claim C5 -/

/-- C5: every roster entry's responseScore is
round(clamp(100 − 2·meanMinutes − activeAssignments + 3·completedToday, 55,
100)); the roster is sorted descending by responseScore with ties broken by
completedToday descending; and the two quoted instances of the formula give
100 and 55. -/
theorem C5_moderator_scores (activeMap completedTodayMap : List (String × ℕ))
    (durationsByModerator : List (String × List ℚ))
    (presenceMap : List (String × String)) (members : List Member) :
    (∀ e ∈ moderatorsView activeMap completedTodayMap durationsByModerator presenceMap
        members,
      e.responseScore = jsRound (max 55 (min 100
        (100 - 2 * e.avgResponseMinutes - (e.activeAssignments : ℚ)
          + 3 * (e.completedToday : ℚ))))) ∧
    List.Sorted (lexDescLE ModeratorEntry.responseScore ModeratorEntry.completedToday)
      (moderatorsView activeMap completedTodayMap durationsByModerator presenceMap
        members) ∧
    jsRound (calculatedScore 0 0 5) = 100 ∧
    jsRound (calculatedScore 30 2 0) = 55 := by
  refine ⟨?_, List.sorted_insertionSort _ _, ?_, ?_⟩
  · intro e he
    simp only [moderatorsView, List.mem_insertionSort, List.mem_map] at he
    obtain ⟨m, _, rfl⟩ := he
    rw [renderModerator_responseScore, calculatedScore_eq]
  · rw [calculatedScore_eq]
    norm_num [jsRound]
  · rw [calculatedScore_eq]
    norm_num [jsRound]

/-- Witness for C5: the score equation instantiated on a concrete roster of
one member with 5 completions today, no assignments and no measured
durations; its responseScore evaluates to 100. -/
theorem C5_witness :
    (renderModerator [] [("100000000000000001", 5)] [] [] c5Member)
        ∈ moderatorsView [] [("100000000000000001", 5)] [] [] [c5Member] ∧
    (renderModerator [] [("100000000000000001", 5)] [] [] c5Member).responseScore
      = 100 := by
  have hmem : (renderModerator [] [("100000000000000001", 5)] [] [] c5Member)
      ∈ moderatorsView [] [("100000000000000001", 5)] [] [] [c5Member] := by
    simp [moderatorsView, List.insertionSort, List.orderedInsert]
  refine ⟨hmem, ?_⟩
  have h := (C5_moderator_scores [] [("100000000000000001", 5)] [] [] [c5Member]).1
    (renderModerator [] [("100000000000000001", 5)] [] [] c5Member) hmem
  rw [h]
  norm_num [renderModerator, assocLookup, jsNullish, jsRound]

/-! ## Claim C6 -/

/-- C6 counterexample: the empty string is a reason containing none of the
keywords, so the claim assigns it `low`; but `if (!reason)` in
index.ts:295 is a falsiness check, so the code returns `medium`. -/
theorem C6_counterexample :
    determinePriority (some "") = Priority.medium ∧
      determinePriority (some "") ≠ Priority.low := by
  constructor <;> decide

/-- C6 (amended): `determinePriority` is a total, deterministic function of
the reason.  A nonempty reason whose lowercasing contains "urgent", "raid"
or "critical" yields urgent; else one containing "high" or "warning" yields
high; else one containing "medium" or "review" yields medium; any other
nonempty reason yields low; an absent or empty reason yields medium. -/
theorem C6_determine_priority_amended :
    determinePriority none = Priority.medium ∧
    determinePriority (some "") = Priority.medium ∧
    ∀ r : String, r ≠ "" →
      ((jsIncludes (jsToLower r) "urgent" || jsIncludes (jsToLower r) "raid" ||
          jsIncludes (jsToLower r) "critical") = true →
        determinePriority (some r) = Priority.urgent) ∧
      ((jsIncludes (jsToLower r) "urgent" || jsIncludes (jsToLower r) "raid" ||
          jsIncludes (jsToLower r) "critical") = false →
        (jsIncludes (jsToLower r) "high" || jsIncludes (jsToLower r) "warning") = true →
        determinePriority (some r) = Priority.high) ∧
      ((jsIncludes (jsToLower r) "urgent" || jsIncludes (jsToLower r) "raid" ||
          jsIncludes (jsToLower r) "critical") = false →
        (jsIncludes (jsToLower r) "high" || jsIncludes (jsToLower r) "warning") = false →
        (jsIncludes (jsToLower r) "medium" || jsIncludes (jsToLower r) "review") = true →
        determinePriority (some r) = Priority.medium) ∧
      ((jsIncludes (jsToLower r) "urgent" || jsIncludes (jsToLower r) "raid" ||
          jsIncludes (jsToLower r) "critical") = false →
        (jsIncludes (jsToLower r) "high" || jsIncludes (jsToLower r) "warning") = false →
        (jsIncludes (jsToLower r) "medium" || jsIncludes (jsToLower r) "review") = false →
        determinePriority (some r) = Priority.low) := by
  refine ⟨rfl, rfl, ?_⟩
  intro r hr
  refine ⟨?_, ?_, ?_, ?_⟩
  · intro h1
    simp only [determinePriority, if_neg hr]
    simp [h1]
  · intro h1 h2
    simp only [determinePriority, if_neg hr]
    simp [h1, h2]
  · intro h1 h2 h3
    simp only [determinePriority, if_neg hr]
    simp [h1, h2, h3]
  · intro h1 h2 h3
    simp only [determinePriority, if_neg hr]
    simp [h1, h2, h3]

/-- Witness for C6 (amended) at concrete reasons. -/
theorem C6_witness :
    ("Raid in progress" ≠ "" ∧
      determinePriority (some "Raid in progress") = Priority.urgent) ∧
    ("HIGH volume spam" ≠ "" ∧
      determinePriority (some "HIGH volume spam") = Priority.high) ∧
    ("please review" ≠ "" ∧
      determinePriority (some "please review") = Priority.medium) ∧
    ("spam" ≠ "" ∧ determinePriority (some "spam") = Priority.low) :=
  ⟨⟨by decide,
    ((C6_determine_priority_amended.2.2 "Raid in progress" (by decide)).1 (by decide))⟩,
   ⟨by decide,
    ((C6_determine_priority_amended.2.2 "HIGH volume spam" (by decide)).2.1
      (by decide) (by decide))⟩,
   ⟨by decide,
    ((C6_determine_priority_amended.2.2 "please review" (by decide)).2.2.1
      (by decide) (by decide) (by decide))⟩,
   ⟨by decide,
    ((C6_determine_priority_amended.2.2 "spam" (by decide)).2.2.2
      (by decide) (by decide) (by decide))⟩⟩

/-! ## Claim C7 -/

/-- C7 counterexample: an empty name with discriminator "1234".  The claim's
cases give `name#discriminator` = "#1234" (the name is present, the
discriminator is present and not "0"), but `if (!username)` in index.ts:319
treats the empty string as absent and returns "Unknown Member". -/
theorem C7_counterexample :
    formatUsername (some "") (some "1234") = "Unknown Member" ∧
      formatUsername (some "") (some "1234") ≠ "" ++ "#" ++ "1234" := by
  constructor <;> decide

/-- C7 (amended): `formatUsername` returns "Unknown Member" when the name is
absent or empty, `name#discriminator` when the name is nonempty and the
discriminator is present, nonempty and not the sentinel "0", and the bare
name otherwise; in particular formatUsername("Alice","0") = "Alice",
formatUsername("Alice","1234") = "Alice#1234", and
formatUsername(undefined, d) = "Unknown Member" for every d. -/
theorem C7_format_username_amended :
    (∀ d : Option String, formatUsername none d = "Unknown Member") ∧
    (∀ d : Option String, formatUsername (some "") d = "Unknown Member") ∧
    (∀ u d : String, u ≠ "" → d ≠ "" → d ≠ "0" →
      formatUsername (some u) (some d) = u ++ "#" ++ d) ∧
    (∀ u : String, u ≠ "" →
      formatUsername (some u) (some "0") = u ∧
      formatUsername (some u) (some "") = u ∧
      formatUsername (some u) none = u) ∧
    formatUsername (some "Alice") (some "0") = "Alice" ∧
    formatUsername (some "Alice") (some "1234") = "Alice#1234" := by
  refine ⟨fun d => rfl, ?_, ?_, ?_, by decide, by decide⟩
  · intro d
    simp [formatUsername]
  · intro u d hu hd hd0
    simp [formatUsername, hu, hd, hd0]
  · intro u hu
    refine ⟨?_, ?_, ?_⟩ <;> simp [formatUsername, hu]

/-- Witness for C7 (amended) at concrete names. -/
theorem C7_witness :
    ("Alice" ≠ "" ∧ "1234" ≠ "" ∧ "1234" ≠ "0" ∧
      formatUsername (some "Alice") (some "1234") = "Alice" ++ "#" ++ "1234") ∧
    ("Alice" ≠ "" ∧ formatUsername (some "Alice") (some "0") = "Alice") :=
  ⟨⟨by decide, by decide, by decide,
    C7_format_username_amended.2.2.1 "Alice" "1234" (by decide) (by decide) (by decide)⟩,
   ⟨by decide, (C7_format_username_amended.2.2.2.1 "Alice" (by decide)).1⟩⟩

/-! ## Claim C8 -/

/-- C8: a route parameter failing the Snowflake pattern `^\d{17,19}$` makes
the route return 400 irrespective of the handler and of the store contents
(so before any store query executes); the validator accepts
"123456789012345678" and rejects "12a" and "123". -/
theorem C8_snowflake_validation :
    (∀ id : String, validateSnowflakeCheck id = false →
      ∀ (α : Type) (handler : Store → α) (store : Store),
        guardedRoute id handler store = RouteResult.badRequest) ∧
    validateSnowflakeCheck "123456789012345678" = true ∧
    validateSnowflakeCheck "12a" = false ∧
    validateSnowflakeCheck "123" = false := by
  refine ⟨?_, by decide, by decide, by decide⟩
  intro id h α handler store
  simp [guardedRoute, h]

/-- Witness for C8: the invalid id "12a" yields 400 on a concrete route and
store. -/
theorem C8_witness :
    validateSnowflakeCheck "12a" = false ∧
    guardedRoute "12a" (fun store => store.warnings.length) ⟨[], [], [], [], []⟩
      = RouteResult.badRequest :=
  ⟨by decide,
   C8_snowflake_validation.1 "12a" (by decide) ℕ
     (fun store => store.warnings.length) ⟨[], [], [], [], []⟩⟩

/-! ## Claim C9 -/

/-- C9: the moderator roster has length min(50, members); in particular it
never exceeds 50 entries, so active members beyond the first 50 fetched are
omitted. -/
theorem C9_moderator_cap (activeMap completedTodayMap : List (String × ℕ))
    (durationsByModerator : List (String × List ℚ))
    (presenceMap : List (String × String)) (members : List Member) :
    (moderatorsView activeMap completedTodayMap durationsByModerator presenceMap
        members).length = min 50 members.length ∧
    (moderatorsView activeMap completedTodayMap durationsByModerator presenceMap
        members).length ≤ 50 := by
  have hlen : (moderatorsView activeMap completedTodayMap durationsByModerator presenceMap
      members).length = min 50 members.length := by
    rw [moderatorsView, List.length_insertionSort, List.length_map, List.length_take]
  exact ⟨hlen, by rw [hlen]; exact min_le_left _ _⟩

/-! ## Claim C10 -/

/-- C10: a warning whose userId has no matching user record is rendered with
user "Unknown Member"; the `?? warning.userId` fallback never takes effect
because `formatUsername` always returns a string; and every rendered entry
comes from an active warning of the store. -/
theorem C10_unknown_member (users : List User) (warnings : List Warning) :
    (∀ w : Warning, findUser users w.userId = none →
      (renderReinforcement users w).user = "Unknown Member") ∧
    (∀ w : Warning,
      (renderReinforcement users w).user
        = formatUsername ((findUser users w.userId).bind User.username)
            ((findUser users w.userId).bind User.discriminator)) ∧
    (∀ e ∈ reinforcementsView users warnings,
      ∃ w, w ∈ warnings ∧ w.active = true ∧ e = renderReinforcement users w) := by
  refine ⟨?_, fun w => rfl, ?_⟩
  · intro w h
    simp only [renderReinforcement]
    rw [h]
    rfl
  · intro e he
    simp only [reinforcementsView, List.mem_map] at he
    obtain ⟨a, ha, rfl⟩ := he
    have hmem := List.take_subset 50
      (List.insertionSort (descLE Warning.createdAt) (activeOf warnings)) ha
    rw [List.mem_insertionSort] at hmem
    have := List.mem_filter.mp hmem
    exact ⟨a, this.1, this.2, rfl⟩

/-- Witness for C10: a store with no user records renders the warning with
"Unknown Member". -/
theorem C10_witness :
    findUser [] c10Warning.userId = none ∧
    (renderReinforcement [] c10Warning).user = "Unknown Member" :=
  ⟨rfl, (C10_unknown_member [] []).1 c10Warning rfl⟩

end SOLServer
